import Mathlib

/-!
Shallow embedding of `pytyrant.py`, a pure-Python client for the Tokyo
Tyrant 1.1.10 binary protocol.  Byte strings are lists of naturals
(each byte < 256 in well-formed data); the socket is modelled explicitly
as a state record carrying the inbound data (split at OS delivery
boundaries, so partial reads are representable), the per-call write
capacities (so short writes are representable) and the bytes written so
far.  Python exceptions become an explicit error type threaded through a
state-and-error monad.
-/

namespace Pytyrant

/-- A byte string: Python 2 `str` values are sequences of bytes. -/
abbrev Bytes := List Nat

/-- Model of `MAGIC = 0xc8`, the leading byte of every request frame. -/
def MAGIC : Nat := 0xc8

def RDBMONOULOG : Nat := 1

def RDBXOLCKREC : Nat := 1

def RDBXOLCKGLB : Nat := 2

namespace C

def put : Nat := 0x10

def putkeep : Nat := 0x11

def putcat : Nat := 0x12

def putshl : Nat := 0x13

def putnr : Nat := 0x18

def out : Nat := 0x20

def get : Nat := 0x30

def mget : Nat := 0x31

def vsiz : Nat := 0x38

def iterinit : Nat := 0x50

def iternext : Nat := 0x51

def fwmkeys : Nat := 0x58

def addint : Nat := 0x60

def adddouble : Nat := 0x61

def ext : Nat := 0x68

def sync : Nat := 0x70

def vanish : Nat := 0x71

def copy : Nat := 0x72

def restore : Nat := 0x73

def setmst : Nat := 0x78

def rnum : Nat := 0x80

def size : Nat := 0x81

def stat : Nat := 0x88

def misc : Nat := 0x90

end C

/-- Big-endian encoding of `n` in exactly `w` bytes, as `struct.pack`
produces for the fixed-width unsigned formats (`I` is `w = 4`, `Q` is
`w = 8`).  `struct.pack` raises for out-of-range values, so call sites
only ever pass in-range values; the `% 256` makes the function total. -/
def beBytes : Nat → Nat → Bytes
  | 0, _ => []
  | w + 1, n => beBytes w (n / 256) ++ [n % 256]

/-- Value of a big-endian byte string, as `struct.unpack` reads it. -/
def beVal (bs : Bytes) : Nat := bs.foldl (fun a b => a * 256 + b) 0

/-- Model of `struct.pack('>BBI', a, b, i)`.  The `B` fields are single bytes
(`struct.pack` raises unless the value is below 256; every call site
passes `MAGIC` or an opcode constant, all below 256). -/
def packBBI (a b i : Nat) : Bytes := [a, b] ++ beBytes 4 i

/-- Model of `struct.pack('>BBII', a, b, i, j)`. -/
def packBBII (a b i j : Nat) : Bytes := [a, b] ++ beBytes 4 i ++ beBytes 4 j

/-- Model of `struct.pack('>BBIII', a, b, i, j, k)`. -/
def packBBIII (a b i j k : Nat) : Bytes :=
  [a, b] ++ beBytes 4 i ++ beBytes 4 j ++ beBytes 4 k

/-- Model of `struct.pack('>BBIIII', a, b, i, j, k, l)`. -/
def packBBIIII (a b i j k l : Nat) : Bytes :=
  [a, b] ++ beBytes 4 i ++ beBytes 4 j ++ beBytes 4 k ++ beBytes 4 l

/-- Model of `struct.pack('>BBIQ', a, b, i, q)`. -/
def packBBIQ (a b i q : Nat) : Bytes := [a, b] ++ beBytes 4 i ++ beBytes 8 q

/-- Model of `struct.pack('>I', i)`. -/
def packI (i : Nat) : Bytes := beBytes 4 i

/-- Model of `_t0(code)`: `[chr(MAGIC) + chr(code)]`. -/
def _t0 (code : Nat) : List Bytes := [[MAGIC, code]]

/-- Model of `_t1(code, key)`. -/
def _t1 (code : Nat) (key : Bytes) : List Bytes :=
  [packBBI MAGIC code key.length, key]

/-- Model of `_t1FN(code, func, opts, args)`. -/
def _t1FN (code : Nat) (func : Bytes) (opts : Nat) (args : List Bytes) :
    List Bytes :=
  [packBBIII MAGIC code func.length opts args.length, func] ++
    args.flatMap fun k => [packI k.length, k]

/-- Model of `_t1R(code, key, msec)`. -/
def _t1R (code : Nat) (key : Bytes) (msec : Nat) : List Bytes :=
  [packBBIQ MAGIC code key.length msec, key]

/-- Model of `_t1M(code, key, count)`. -/
def _t1M (code : Nat) (key : Bytes) (count : Nat) : List Bytes :=
  [packBBII MAGIC code key.length count, key]

/-- Model of `_tN(code, klst)`. -/
def _tN (code : Nat) (klst : List Bytes) : List Bytes :=
  [packBBI MAGIC code klst.length] ++ klst.flatMap fun k => [packI k.length, k]

/-- Model of `_t2(code, key, value)`. -/
def _t2 (code : Nat) (key value : Bytes) : List Bytes :=
  [packBBII MAGIC code key.length value.length, key, value]

/-- Model of `_t2W(code, key, value, width)`. -/
def _t2W (code : Nat) (key value : Bytes) (width : Nat) : List Bytes :=
  [packBBIII MAGIC code key.length value.length width, key, value]

/-- Model of `_t3F(code, func, opts, key, value)`. -/
def _t3F (code : Nat) (func : Bytes) (opts : Nat) (key value : Bytes) :
    List Bytes :=
  [packBBIIII MAGIC code func.length opts key.length value.length,
   func, key, value]

/-- The client's view of the TCP socket.  `rchunks` is the inbound data,
split at the boundaries the OS happens to deliver it at (so a `recv(n)`
can return fewer than `n` bytes, as real sockets do); `wcaps` gives, for
each successive `send` call, the maximum number of bytes the OS accepts
(an empty list means every write is accepted whole); `sent` accumulates
the bytes actually written to the wire. -/
structure Sock where
  rchunks : List Bytes
  wcaps : List Nat
  sent : Bytes
deriving DecidableEq

/-- Model of `sock.recv(n)`: returns at most `n` bytes from the currently
delivered chunk; an exhausted stream (closed connection) yields the
empty string. -/
def recv (n : Nat) (s : Sock) : Bytes × Sock :=
  match s.rchunks with
  | [] => ([], s)
  | c :: rest =>
      let r := c.take n
      let c' := c.drop n
      (r, { s with rchunks := if c' = [] then rest else c' :: rest })

/-- Model of `sock.send(chunk)`: writes up to the OS-accepted number of bytes and
returns how many were actually written (which the library ignores). -/
def send (chunk : Bytes) (s : Sock) : Nat × Sock :=
  match s.wcaps with
  | [] => (chunk.length, { s with sent := s.sent ++ chunk })
  | cap :: rest =>
      let k := min cap chunk.length
      (k, { s with sent := s.sent ++ chunk.take k, wcaps := rest })

/-- Python exceptions observable in the embedded fragment. -/
inductive Err where
  /-- Model of `TyrantError(code)`: the protocol error raised on a non-zero
  status byte, carrying that byte. -/
  | tyrant (code : Nat)
  /-- Model of `KeyError(key)`, raised by the dict-like `PyTyrant` wrapper. -/
  | keyError (key : Bytes)
  /-- Model of `struct.error`: `struct.unpack` applied to data of the wrong
  length. -/
  | structError
  /-- Model of `TypeError`: `ord` applied to a string whose length is not 1. -/
  | typeError
  /-- Model of `ValueError`: `dict` built from a sequence element that is not a
  pair. -/
  | valueError
deriving DecidableEq

/-- A stateful, fallible computation over the socket. -/
def M (α : Type) : Type := Sock → Except Err α × Sock

/-- Return without touching the socket. -/
def mret {α : Type} (a : α) : M α := fun s => (.ok a, s)

/-- Raise an exception. -/
def throwM {α : Type} (e : Err) : M α := fun s => (.error e, s)

/-- Sequencing: an exception aborts the rest of the computation but the
socket keeps whatever state the failing step left it in. -/
def mbind {α β : Type} (m : M α) (k : α → M β) : M β := fun s =>
  match m s with
  | (.ok a, s') => k a s'
  | (.error e, s') => (.error e, s')

/-- Model of `try: m except TyrantError: h` — only `TyrantError` is caught; every
other exception propagates. -/
def catchTyrant {α : Type} (m : M α) (h : M α) : M α := fun s =>
  match m s with
  | (.error (.tyrant _), s') => h s'
  | r => r

/-- Model of `sock.recv(n)` as a computation (never raises by itself). -/
def recvM (n : Nat) : M Bytes := fun s =>
  let (b, s') := recv n s
  (.ok b, s')

/-- Model of `socksend(sock, lst)`: `for chunk in lst: sock.send(chunk)` — the
count returned by each `send` is discarded. -/
def socksend (lst : List Bytes) : M Unit := fun s =>
  (.ok (), lst.foldl (fun st chunk => (send chunk st).2) s)

/-- Model of `socksuccess(sock)`: `fail_code = ord(sock.recv(1)); if fail_code:
raise TyrantError(fail_code)`. -/
def socksuccess : M Unit := fun s =>
  let (b, s') := recv 1 s
  match b with
  | [code] =>
      if code = 0 then (.ok (), s') else (.error (.tyrant code), s')
  | _ => (.error .typeError, s')

/-- Model of `socklen(sock)`: `struct.unpack('>I', sock.recv(4))[0]` —
`struct.unpack` raises unless it gets exactly 4 bytes. -/
def socklen : M Nat := fun s =>
  let (b, s') := recv 4 s
  if b.length = 4 then (.ok (beVal b), s') else (.error .structError, s')

/-- Model of `socklong(sock)`: `struct.unpack('>Q', sock.recv(8))[0]`. -/
def socklong : M Nat := fun s =>
  let (b, s') := recv 8 s
  if b.length = 8 then (.ok (beVal b), s') else (.error .structError, s')

/-- Model of `sockstr(sock)`: `sock.recv(socklen(sock))` — returns whatever the
single `recv` yields. -/
def sockstr : M Bytes := mbind socklen fun n => recvM n

/-- Model of `sockstrpair(sock)`: two lengths, then the two byte strings. -/
def sockstrpair : M (Bytes × Bytes) :=
  mbind socklen fun klen =>
  mbind socklen fun vlen =>
  mbind (recvM klen) fun k =>
  mbind (recvM vlen) fun v =>
  mret (k, v)

/-- Model of `n` repetitions of a read step, as the `for i in xrange(n)` loops of
the generator-based commands. -/
def mreplicate {α : Type} (f : M α) : Nat → M (List α)
  | 0 => mret []
  | n + 1 =>
      mbind f fun a =>
      mbind (mreplicate f n) fun rest =>
      mret (a :: rest)

/-! The `Tyrant` command set: one method per opcode, each sending an
encoded frame and then reading the response.  (`Tyrant.addint` and
`Tyrant.adddouble` have opcode constants but no methods in the source.) -/

namespace Tyrant

/-- Model of `Tyrant.put`. -/
def put (key value : Bytes) : M Unit :=
  mbind (socksend (_t2 C.put key value)) fun _ => socksuccess

/-- Model of `Tyrant.putkeep`. -/
def putkeep (key value : Bytes) : M Unit :=
  mbind (socksend (_t2 C.putkeep key value)) fun _ => socksuccess

/-- Model of `Tyrant.putcat`. -/
def putcat (key value : Bytes) : M Unit :=
  mbind (socksend (_t2 C.putcat key value)) fun _ => socksuccess

/-- Model of `Tyrant.putshl`. -/
def putshl (key value : Bytes) (width : Nat) : M Unit :=
  mbind (socksend (_t2W C.putshl key value width)) fun _ => socksuccess

/-- Model of `Tyrant.putnr`: sends the frame and returns — no `socksuccess`, no
read of any kind. -/
def putnr (key value : Bytes) : M Unit :=
  socksend (_t2 C.putnr key value)

/-- Model of `Tyrant.out`. -/
def out (key : Bytes) : M Unit :=
  mbind (socksend (_t1 C.out key)) fun _ => socksuccess

/-- Model of `Tyrant.get`. -/
def get (key : Bytes) : M Bytes :=
  mbind (socksend (_t1 C.get key)) fun _ =>
  mbind socksuccess fun _ => sockstr

/-- Model of `Tyrant.mget` (the materialized `_mget` generator). -/
def mget (klst : List Bytes) : M (List (Bytes × Bytes)) :=
  mbind (socksend (_tN C.mget klst)) fun _ =>
  mbind socksuccess fun _ =>
  mbind socklen fun numrecs => mreplicate sockstrpair numrecs

/-- Model of `Tyrant.vsiz`. -/
def vsiz (key : Bytes) : M Nat :=
  mbind (socksend (_t1 C.vsiz key)) fun _ =>
  mbind socksuccess fun _ => socklen

/-- Model of `Tyrant.iterinit`. -/
def iterinit : M Unit :=
  mbind (socksend (_t0 C.iterinit)) fun _ => socksuccess

/-- Model of `Tyrant.iternext`. -/
def iternext : M Bytes :=
  mbind (socksend (_t0 C.iternext)) fun _ =>
  mbind socksuccess fun _ => sockstr

/-- Model of `Tyrant.fwmkeys` (the materialized `_fwmkeys` generator). -/
def fwmkeys (pfx : Bytes) (maxkeys : Nat) : M (List Bytes) :=
  mbind (socksend (_t1M C.fwmkeys pfx maxkeys)) fun _ =>
  mbind socksuccess fun _ =>
  mbind socklen fun numkeys => mreplicate sockstr numkeys

/-- Model of `Tyrant.ext`. -/
def ext (func : Bytes) (opts : Nat) (key value : Bytes) : M Bytes :=
  mbind (socksend (_t3F C.ext func opts key value)) fun _ =>
  mbind socksuccess fun _ => sockstr

/-- Model of `Tyrant.sync`. -/
def sync : M Unit :=
  mbind (socksend (_t0 C.sync)) fun _ => socksuccess

/-- Model of `Tyrant.vanish`. -/
def vanish : M Unit :=
  mbind (socksend (_t0 C.vanish)) fun _ => socksuccess

/-- Model of `Tyrant.copy`. -/
def copy (path : Bytes) : M Unit :=
  mbind (socksend (_t1 C.copy path)) fun _ => socksuccess

/-- Model of `Tyrant.restore`: the source encodes the frame as
`_t1R(C.copy, path, msec)` — note the opcode constant it passes. -/
def restore (path : Bytes) (msec : Nat) : M Unit :=
  mbind (socksend (_t1R C.copy path msec)) fun _ => socksuccess

/-- Model of `Tyrant.setmst`. -/
def setmst (host : Bytes) (port : Nat) : M Unit :=
  mbind (socksend (_t1M C.setmst host port)) fun _ => socksuccess

/-- Model of `Tyrant.rnum`. -/
def rnum : M Nat :=
  mbind (socksend (_t0 C.rnum)) fun _ =>
  mbind socksuccess fun _ => socklong

/-- Model of `Tyrant.size`. -/
def size : M Nat :=
  mbind (socksend (_t0 C.size)) fun _ =>
  mbind socksuccess fun _ => socklong

/-- Model of `Tyrant.stat`. -/
def stat : M Bytes :=
  mbind (socksend (_t0 C.stat)) fun _ =>
  mbind socksuccess fun _ => sockstr

/-- Model of `Tyrant.misc` (the materialized `_misc` generator). -/
def misc (func : Bytes) (opts : Nat) (args : List Bytes) : M (List Bytes) :=
  mbind (socksend (_t1FN C.misc func opts args)) fun _ =>
  mbind socksuccess fun _ =>
  mbind socklen fun numrecs => mreplicate sockstr numrecs

end Tyrant

/-! The `PyTyrant` dict-like wrapper (the methods the claims are
about). -/

namespace PyTyrant

/-- Model of `PyTyrant.__contains__`: `try: vsiz(key) except TyrantError: return
False else: return True`. -/
def contains (key : Bytes) : M Bool :=
  catchTyrant (mbind (Tyrant.vsiz key) fun _ => mret true) (mret false)

/-- Model of `PyTyrant.__getitem__`: `try: return get(key) except TyrantError:
raise KeyError(key)`. -/
def getitem (key : Bytes) : M Bytes :=
  catchTyrant (Tyrant.get key) (throwM (.keyError key))

/-- Model of `PyTyrant.setdefault`: `try: putkeep(key, value) except TyrantError:
return self[key]; return value`. -/
def setdefault (key value : Bytes) : M Bytes :=
  catchTyrant (mbind (Tyrant.putkeep key value) fun _ => mret value)
    (getitem key)

/-- Model of `PyTyrant.__delitem__`: `try: out(key) except TyrantError: raise
KeyError(key)`. -/
def delitem (key : Bytes) : M Unit :=
  catchTyrant (Tyrant.out key) (throwM (.keyError key))

/-- Model of `PyTyrant.get_size`: `try: return vsiz(key) except TyrantError:
raise KeyError(key)`. -/
def get_size (key : Bytes) : M Nat :=
  catchTyrant (Tyrant.vsiz key) (throwM (.keyError key))

/-- The `while True: yield iternext()` loop of `PyTyrant.iterkeys`,
wrapped in `try: ... except TyrantError: pass`: a `TyrantError` raised
by any `iternext` call ends the sequence normally; any other exception
propagates.  `fuel` bounds the unbounded source loop so the model is a
total function; a run that produces `n` keys is fully described by any
`fuel > n`. -/
def iterkeysAux : Nat → M (List Bytes)
  | 0 => mret []
  | n + 1 => fun s =>
      match Tyrant.iternext s with
      | (.ok k, s') =>
          match iterkeysAux n s' with
          | (.ok ks, s'') => (.ok (k :: ks), s'')
          | r => r
      | (.error (.tyrant _), s') => (.ok [], s')
      | (.error e, s') => (.error e, s')

/-- Model of `PyTyrant.iterkeys` (materialized): `iterinit()` — outside the
`try` — then the guarded `iternext` loop. -/
def iterkeys (fuel : Nat) : M (List Bytes) :=
  mbind Tyrant.iterinit fun _ => iterkeysAux fuel

end PyTyrant

/-- Python 2 `str.splitlines` (accumulator-based): lines are separated
by `\n` (10), `\r` (13) or `\r\n`, and a trailing terminator does not
produce a final empty line. -/
def splitlinesAux (cur : Bytes) : Bytes → List Bytes
  | [] => if cur = [] then [] else [cur.reverse]
  | 13 :: 10 :: rest => cur.reverse :: splitlinesAux [] rest
  | 13 :: rest => cur.reverse :: splitlinesAux [] rest
  | 10 :: rest => cur.reverse :: splitlinesAux [] rest
  | b :: rest => splitlinesAux (b :: cur) rest

/-- Model of `s.splitlines()`. -/
def splitlines (s : Bytes) : List Bytes := splitlinesAux [] s

/-- Model of `l.split(sep, 1)` for a one-byte separator: at most one split, at
the first occurrence of `sep`. -/
def splitFirstAux (sep : Nat) (acc : Bytes) : Bytes → List Bytes
  | [] => [acc.reverse]
  | b :: rest =>
      if b = sep then [acc.reverse, rest]
      else splitFirstAux sep (b :: acc) rest

/-- Model of `l.split(sep, 1)`. -/
def splitFirst (sep : Nat) (l : Bytes) : List Bytes := splitFirstAux sep [] l

/-- Model of `dict(pairs)` applied to the split lines: each element must be a
two-element sequence, otherwise `dict` raises `ValueError`.  The result
is kept as the ordered list of pairs fed to `dict`. -/
def statPairs : List Bytes → Except Err (List (Bytes × Bytes))
  | [] => .ok []
  | l :: rest =>
      match splitFirst 9 l with
      | [k, v] =>
          match statPairs rest with
          | .ok ps => .ok ((k, v) :: ps)
          | .error e => .error e
      | _ => .error .valueError

namespace PyTyrant

/-- Model of `PyTyrant.get_stats`:
`dict(l.split('\t', 1) for l in self.t.stat().splitlines() if l)`. -/
def get_stats : M (List (Bytes × Bytes)) :=
  mbind Tyrant.stat fun blob => fun s =>
    (statPairs ((splitlines blob).filter fun l => l ≠ []), s)

end PyTyrant

/-! Helper lemmas. -/

/-- Appending one byte shifts the accumulated big-endian value. -/
theorem beVal_append_byte (bs : Bytes) (b : Nat) :
    beVal (bs ++ [b]) = beVal bs * 256 + b := by
  simp [beVal, List.foldl_append]

/-- Fixed-width encodings have exactly the declared width. -/
theorem beBytes_length (w n : Nat) : (beBytes w n).length = w := by
  induction w generalizing n with
  | zero => simp [beBytes]
  | succ w ih => simp [beBytes, ih]

/-- Decoding a fixed-width big-endian encoding recovers the value
modulo the width. -/
theorem beVal_beBytes (w n : Nat) : beVal (beBytes w n) = n % 2 ^ (8 * w) := by
  induction w generalizing n with
  | zero => simp [beBytes, beVal, Nat.mod_one]
  | succ w ih =>
      rw [beBytes, beVal_append_byte, ih]
      have h2 : (2 : Nat) ^ (8 * (w + 1)) = 256 * 2 ^ (8 * w) := by
        rw [Nat.mul_succ, pow_add]
        norm_num [Nat.mul_comm]
      rw [h2, Nat.mod_mul]
      ring

/-- Every byte of a fixed-width encoding is a byte value. -/
theorem beBytes_mem_lt (w n b : Nat) (hb : b ∈ beBytes w n) : b < 256 := by
  induction w generalizing n with
  | zero => simp [beBytes] at hb
  | succ w ih =>
      rw [beBytes] at hb
      rcases List.mem_append.1 hb with h | h
      · exact ih _ h
      · simp at h
        omega

/-- Joining the per-key chunk pairs of `_tN`/`_t1FN`. -/
theorem join_flatMap_pairs (klst : List Bytes) :
    (klst.flatMap fun k => [packI k.length, k]).flatten =
      klst.flatMap fun k => beBytes 4 k.length ++ k := by
  induction klst with
  | nil => simp
  | cons k klst ih =>
      simp only [packI] at ih
      simp [ih, packI, List.append_assoc]

/-- Folding `send` over chunks with no write caps writes everything. -/
theorem sendAll_nocaps (lst : List Bytes) (r : List Bytes) (o : Bytes) :
    lst.foldl (fun st chunk => (send chunk st).2) ⟨r, [], o⟩ =
      ⟨r, [], o ++ lst.flatten⟩ := by
  induction lst generalizing o with
  | nil => simp
  | cons c lst ih =>
      rw [List.foldl_cons, show (send c ⟨r, [], o⟩).2 = ⟨r, [], o ++ c⟩ from rfl,
        ih]
      simp [List.append_assoc]

/-- Folding `send` over chunks never touches the inbound stream. -/
theorem sendAll_rchunks (lst : List Bytes) (s : Sock) :
    (lst.foldl (fun st chunk => (send chunk st).2) s).rchunks = s.rchunks := by
  induction lst generalizing s with
  | nil => rfl
  | cons c lst ih =>
      rw [List.foldl_cons, ih]
      cases h : s.wcaps <;> simp [send, h]

/-- With no write caps, `socksend` appends the joined frame. -/
theorem socksend_nocaps (lst : List Bytes) (r : List Bytes) (o : Bytes) :
    socksend lst ⟨r, [], o⟩ = (.ok (), ⟨r, [], o ++ lst.flatten⟩) := by
  simp [socksend, sendAll_nocaps]

/-- Behaviour of `socksuccess` on a delivered status byte. -/
theorem socksuccess_cons (b : Nat) (c : Bytes) (r : List Bytes)
    (w : List Nat) (o : Bytes) :
    socksuccess ⟨(b :: c) :: r, w, o⟩ =
      ((if b = 0 then Except.ok () else Except.error (Err.tyrant b)),
       ⟨if c = [] then r else c :: r, w, o⟩) := by
  by_cases hb : b = 0 <;> simp [socksuccess, recv, hb]

/-- A command of shape `socksend; socksuccess` on a non-zero status
byte: the frame goes out, the status byte is consumed, the error
carries the byte, and nothing further is read. -/
theorem statusFail1 (f : List Bytes) (b : Nat) (r : List Bytes)
    (o : Bytes) (hb : b ≠ 0) :
    mbind (socksend f) (fun _ => socksuccess) ⟨[b] :: r, [], o⟩ =
      (.error (.tyrant b), ⟨r, [], o ++ f.flatten⟩) := by
  simp [mbind, socksend_nocaps, socksuccess_cons, hb]

/-- A command of shape `socksend; socksuccess; more-reads` on a
non-zero status byte: the error short-circuits before any payload
read. -/
theorem statusFail2 {α : Type} (f : List Bytes) (k : Unit → M α)
    (b : Nat) (r : List Bytes) (o : Bytes) (hb : b ≠ 0) :
    mbind (socksend f) (fun _ => mbind socksuccess k) ⟨[b] :: r, [], o⟩ =
      (.error (.tyrant b), ⟨r, [], o ++ f.flatten⟩) := by
  simp [mbind, socksend_nocaps, socksuccess_cons, hb]

/-- Splitting at the first separator occurrence, with a pending
accumulator: the chunk before the first separator and everything after
it. -/
theorem splitFirstAux_of_mem (acc l : Bytes) (h : (9 : Nat) ∈ l) :
    splitFirstAux 9 acc l =
      [acc.reverse ++ l.takeWhile (fun b => b != 9),
       (l.dropWhile fun b => b != 9).tail] := by
  induction l generalizing acc with
  | nil => simp at h
  | cons b rest ih =>
      by_cases hb : b = 9
      · subst hb
        simp [splitFirstAux]
      · have h' : (9 : Nat) ∈ rest := by
          rcases List.mem_cons.1 h with h9 | h9
          · exact absurd h9.symm hb
          · exact h9
        simp [splitFirstAux, hb, ih _ h', List.append_assoc]

/-- A line containing a tab splits into the part before the first tab
and everything after it (later tabs kept). -/
theorem splitFirst_of_mem (l : Bytes) (h : (9 : Nat) ∈ l) :
    splitFirst 9 l =
      [l.takeWhile (fun b => b != 9),
       (l.dropWhile fun b => b != 9).tail] := by
  simpa using splitFirstAux_of_mem [] l h

/-- When every line contains a tab, `dict` construction succeeds and
yields exactly the first-tab splits, in order. -/
theorem statPairs_ok (ls : List Bytes) (h : ∀ l ∈ ls, (9 : Nat) ∈ l) :
    statPairs ls = .ok (ls.map fun l =>
      (l.takeWhile fun b => b != 9, (l.dropWhile fun b => b != 9).tail)) := by
  induction ls with
  | nil => rfl
  | cons l ls ih =>
      rw [statPairs, splitFirst_of_mem l (h l (by simp)),
        ih fun x hx => h x (by simp [hx])]
      rfl

/-- Stepping a sequenced computation whose first part succeeds. -/
theorem mbind_ok {α β : Type} (m : M α) (k : α → M β) (s s1 : Sock) (a : α)
    (h : m s = (.ok a, s1)) : mbind m k s = k a s1 := by
  simp [mbind, h]

/-- Stepping a sequenced computation whose first part raises. -/
theorem mbind_err {α β : Type} (m : M α) (k : α → M β) (s s1 : Sock) (e : Err)
    (h : m s = (.error e, s1)) : mbind m k s = (.error e, s1) := by
  simp [mbind, h]

/-- Reading exactly the leading part of the delivered chunk. -/
theorem recv_exact {n : Nat} (c1 c2 : Bytes) (r : List Bytes) (w : List Nat)
    (o : Bytes) (h : c1.length = n) :
    recv n ⟨(c1 ++ c2) :: r, w, o⟩ =
      (c1, ⟨if c2 = [] then r else c2 :: r, w, o⟩) := by
  simp [recv, List.take_left' h, List.drop_left' h]

/-- Reading a whole delivered chunk. -/
theorem recv_all (c : Bytes) (r : List Bytes) (w : List Nat) (o : Bytes) :
    recv c.length ⟨c :: r, w, o⟩ = (c, ⟨r, w, o⟩) := by
  simp [recv]

/-- Behaviour of `socklen` when the 4 length bytes arrive in one
chunk. -/
theorem socklen_exact (len c2 : Bytes) (r : List Bytes) (w : List Nat)
    (o : Bytes) (h4 : len.length = 4) :
    socklen ⟨(len ++ c2) :: r, w, o⟩ =
      (.ok (beVal len), ⟨if c2 = [] then r else c2 :: r, w, o⟩) := by
  simp only [socklen, recv_exact len c2 r w o h4]
  simp [h4]

/-- Running `Tyrant.stat` against a well-formed single-chunk response
stream returns the payload blob and consumes the whole stream. -/
theorem stat_run (blob : Bytes) (hlen : blob.length < 2 ^ 32) :
    Tyrant.stat ⟨[[0] ++ beBytes 4 blob.length ++ blob], [], []⟩ =
      (Except.ok blob, ⟨[], [], [MAGIC, C.stat]⟩) := by
  have hbe4 : (beBytes 4 blob.length).length = 4 := beBytes_length 4 _
  have hval : beVal (beBytes 4 blob.length) = blob.length := by
    rw [beVal_beBytes]
    exact Nat.mod_eq_of_lt (by simpa using hlen)
  have hne : beBytes 4 blob.length ++ blob ≠ [] := by
    intro hc
    have hlc := congrArg List.length hc
    rw [List.length_append, hbe4] at hlc
    simp at hlc
  have h1 : socksend (_t0 C.stat)
        ⟨[[0] ++ beBytes 4 blob.length ++ blob], [], []⟩ =
      (.ok (), ⟨[[0] ++ beBytes 4 blob.length ++ blob], [],
        [MAGIC, C.stat]⟩) := by
    rw [socksend_nocaps]
    simp [_t0]
  have h2 : socksuccess
        ⟨[[0] ++ beBytes 4 blob.length ++ blob], [], [MAGIC, C.stat]⟩ =
      (.ok (), ⟨[beBytes 4 blob.length ++ blob], [], [MAGIC, C.stat]⟩) := by
    simpa [hne] using
      socksuccess_cons 0 (beBytes 4 blob.length ++ blob) [] [] [MAGIC, C.stat]
  have h3 : socklen ⟨[beBytes 4 blob.length ++ blob], [], [MAGIC, C.stat]⟩ =
      (.ok blob.length,
       ⟨if blob = [] then [] else [blob], [], [MAGIC, C.stat]⟩) := by
    have hs := socklen_exact (beBytes 4 blob.length) blob [] [] [MAGIC, C.stat] hbe4
    rw [hval] at hs
    exact hs
  have h4 : recvM blob.length
        ⟨if blob = [] then [] else [blob], [], [MAGIC, C.stat]⟩ =
      (.ok blob, ⟨[], [], [MAGIC, C.stat]⟩) := by
    rcases blob with _ | ⟨b0, bs⟩
    · simp [recvM, recv]
    · rw [if_neg (List.cons_ne_nil b0 bs)]
      simp only [recvM]
      rw [recv_all]
  calc Tyrant.stat ⟨[[0] ++ beBytes 4 blob.length ++ blob], [], []⟩
      = mbind socksuccess (fun _ => sockstr)
          ⟨[[0] ++ beBytes 4 blob.length ++ blob], [], [MAGIC, C.stat]⟩ :=
        mbind_ok _ _ _ _ _ h1
    _ = sockstr ⟨[beBytes 4 blob.length ++ blob], [], [MAGIC, C.stat]⟩ :=
        mbind_ok _ _ _ _ _ h2
    _ = recvM blob.length
          ⟨if blob = [] then [] else [blob], [], [MAGIC, C.stat]⟩ :=
        mbind_ok _ _ _ _ _ h3
    _ = (Except.ok blob, ⟨[], [], [MAGIC, C.stat]⟩) := h4

/-- The iteration loop body never lets a `TyrantError` escape: every
`TyrantError` raised by `iternext`, whatever its code, is converted to
normal termination. -/
theorem iterkeysAux_no_tyrant (fuel : Nat) (s : Sock) (c : Nat) :
    (PyTyrant.iterkeysAux fuel s).1 ≠ Except.error (Err.tyrant c) := by
  induction fuel generalizing s with
  | zero => simp [PyTyrant.iterkeysAux, mret]
  | succ fuel ih =>
      rw [PyTyrant.iterkeysAux]
      cases h : Tyrant.iternext s with
      | mk res s' =>
          cases res with
          | ok k =>
              cases h2 : PyTyrant.iterkeysAux fuel s' with
              | mk res2 s'' =>
                  cases res2 with
                  | ok ks => simp [h, h2]
                  | error e =>
                      have he := ih s'
                      rw [h2] at he
                      simp only [ne_eq] at he
                      simp [h, h2]
                      intro hc
                      exact he (by rw [hc])
          | error e =>
              cases e <;> simp [h]

/-- A `try/except TyrantError` whose handler never produces the
`TyrantError` in question cannot produce it either: the guarded body's
`TyrantError`s are all caught, and its other exceptions are not
`TyrantError`s. -/
theorem catchTyrant_no_tyrant {α : Type} (m h : M α) (s : Sock) (c : Nat)
    (hh : ∀ s', (h s').1 ≠ Except.error (Err.tyrant c)) :
    (catchTyrant m h s).1 ≠ Except.error (Err.tyrant c) := by
  unfold catchTyrant
  cases hm : m s with
  | mk res s' =>
      cases res with
      | ok a => simp [hm]
      | error e =>
          cases e with
          | tyrant c' => simpa [hm] using hh s'
          | keyError k => simp [hm]
          | structError => simp [hm]
          | typeError => simp [hm]
          | valueError => simp [hm]

/-! Claim theorems. -/

/-- C1 (code bug): the claim states that `restore(path, msec)` sends a
frame whose opcode byte is the restore opcode `0x73`.  Evaluating the
code at the failing input `restore("a", 0)`: the frame actually sent
carries `0x72` (`C.copy`) as its second byte, because the source passes
`C.copy` instead of `C.restore` to `_t1R`, contradicting both the
method docstring and the (otherwise unused) `C.restore` constant. -/
theorem c1_restore_sends_copy_opcode :
    (Tyrant.restore [97] 0 ⟨[[0]], [], []⟩).2.sent =
      [0xc8, 0x72, 0, 0, 0, 1, 0, 0, 0, 0, 0, 0, 0, 0, 97]
  ∧ ((Tyrant.restore [97] 0 ⟨[[0]], [], []⟩).2.sent)[1]? = some C.copy
  ∧ C.copy ≠ C.restore := by
  exact ⟨rfl, rfl, by decide⟩

/-- C3 (code bug): the claim states every fixed-length read accumulates
partial reads until exactly `n` bytes are returned.  The code issues a
single `recv`: when the 4 length bytes arrive split as two 2-byte
deliveries (4 bytes available in total), `socklen` hands the 2-byte
partial result to `struct.unpack`, which raises, instead of
accumulating; and `sockstr` returns 1 byte where 3 were requested. -/
theorem c3_single_recv_no_accumulation :
    socklen ⟨[[0, 0], [0, 4]], [], []⟩ =
      (.error .structError, ⟨[[0, 4]], [], []⟩)
  ∧ ([[0, 0], [0, 4]] : List Bytes).flatten.length = 4
  ∧ (sockstr ⟨[[0, 0, 0, 3], [97], [98, 99]], [], []⟩).1 = .ok [97]
  ∧ ([97] : Bytes).length < 3 := by
  exact ⟨rfl, rfl, rfl, by decide⟩

/-- C4 (code bug): the claim states a short write is retried until the
whole chunk is written.  The code calls `send` once per chunk and
ignores its return value: when the OS accepts only 2 of 4 bytes, the
remaining 2 bytes are silently dropped. -/
theorem c4_short_write_dropped :
    socksend [[1, 2, 3, 4]] ⟨[], [2], []⟩ = (.ok (), ⟨[], [], [1, 2]⟩)
  ∧ ([1, 2] : Bytes) ≠ [1, 2, 3, 4] := by
  exact ⟨rfl, by decide⟩

/-- C5: every encoded request frame begins with the magic byte `0xC8`
followed by the opcode byte; every integer field is an unsigned
big-endian value of exactly the declared width (u32, u64 for the
timestamp); each length field equals the byte length of the data it
describes and immediately precedes or counts it; and the flattened
frame is the plain concatenation of those fields — no padding. -/
theorem c5_frame_layout :
    (∀ code, (_t0 code).flatten = [MAGIC, code])
  ∧ (∀ code key, (_t1 code key).flatten =
      [MAGIC, code] ++ beBytes 4 key.length ++ key)
  ∧ (∀ code key msec, (_t1R code key msec).flatten =
      [MAGIC, code] ++ beBytes 4 key.length ++ beBytes 8 msec ++ key)
  ∧ (∀ code key count, (_t1M code key count).flatten =
      [MAGIC, code] ++ beBytes 4 key.length ++ beBytes 4 count ++ key)
  ∧ (∀ code key value, (_t2 code key value).flatten =
      [MAGIC, code] ++ beBytes 4 key.length ++ beBytes 4 value.length ++
        key ++ value)
  ∧ (∀ code key value width, (_t2W code key value width).flatten =
      [MAGIC, code] ++ beBytes 4 key.length ++ beBytes 4 value.length ++
        beBytes 4 width ++ key ++ value)
  ∧ (∀ code klst, (_tN code klst).flatten =
      [MAGIC, code] ++ beBytes 4 klst.length ++
        klst.flatMap fun k => beBytes 4 k.length ++ k)
  ∧ (∀ code func opts args, (_t1FN code func opts args).flatten =
      [MAGIC, code] ++ beBytes 4 func.length ++ beBytes 4 opts ++
        beBytes 4 args.length ++ func ++
        args.flatMap fun k => beBytes 4 k.length ++ k)
  ∧ (∀ code func opts key value, (_t3F code func opts key value).flatten =
      [MAGIC, code] ++ beBytes 4 func.length ++ beBytes 4 opts ++
        beBytes 4 key.length ++ beBytes 4 value.length ++
        func ++ key ++ value)
  ∧ (∀ w n, (beBytes w n).length = w)
  ∧ (∀ w n, beVal (beBytes w n) = n % 2 ^ (8 * w))
  ∧ (∀ w n b, b ∈ beBytes w n → b < 256) := by
  refine ⟨fun code => ?_, fun code key => ?_, fun code key msec => ?_,
    fun code key count => ?_, fun code key value => ?_,
    fun code key value width => ?_, fun code klst => ?_,
    fun code func opts args => ?_, fun code func opts key value => ?_,
    beBytes_length, beVal_beBytes, beBytes_mem_lt⟩
  · simp [_t0]
  · simp [_t1, packBBI, List.append_assoc]
  · simp [_t1R, packBBIQ, List.append_assoc]
  · simp [_t1M, packBBII, List.append_assoc]
  · simp [_t2, packBBII, List.append_assoc]
  · simp [_t2W, packBBIII, List.append_assoc]
  · simp [_tN, packBBI, join_flatMap_pairs, List.append_assoc]
  · simp [_t1FN, packBBIII, join_flatMap_pairs, List.append_assoc]
  · simp [_t3F, packBBIIII, List.append_assoc]

/-- Witness for C5: the key+value layout at a concrete frame, and the
byte-bound fact at a concrete encoded byte. -/
theorem c5_frame_layout_witness :
    (_t2 C.put [107] [118, 119]).flatten =
      [MAGIC, C.put] ++ beBytes 4 (List.length [107]) ++
        beBytes 4 (List.length [118, 119]) ++ [107] ++ [118, 119]
  ∧ (4 : Nat) < 256 := by
  refine ⟨c5_frame_layout.2.2.2.2.1 C.put [107] [118, 119], ?_⟩
  exact c5_frame_layout.2.2.2.2.2.2.2.2.2.2.2 4 1234 4 (by decide)

/-- C2 (counterexample): the claim states the iteration loop terminates
normally only on the one specific end-of-iteration error code and that
every other code propagates.  Two runs in which `iternext` raises
`TyrantError(7)` and `TyrantError(3)` respectively both terminate
normally with the keys collected so far; since `7 ≠ 3`, at least one of
those codes is not the end-of-iteration code, yet it did not
propagate. -/
theorem c2_iterkeys_counterexample :
    (PyTyrant.iterkeys 2 ⟨[[0, 0, 0, 0, 0, 1, 97, 7]], [], []⟩).1 =
      Except.ok [[97]]
  ∧ (PyTyrant.iterkeys 2 ⟨[[0, 0, 0, 0, 0, 1, 97, 3]], [], []⟩).1 =
      Except.ok [[97]]
  ∧ (7 : Nat) ≠ 3 := by
  exact ⟨rfl, rfl, by decide⟩

/-- C2 (amended): the iteration loop terminates normally on any
`TyrantError` raised by `iternext`, whatever its numeric code — no
`TyrantError` from the loop body ever reaches the caller (one raised by
the initial `iterinit`, which is outside the `try`, still would). -/
theorem c2_iterkeys_stops_on_any_tyrant_error :
    (∀ fuel s c,
        (PyTyrant.iterkeysAux fuel s).1 ≠ Except.error (Err.tyrant c))
  ∧ (∀ fuel s, (Tyrant.iterinit s).1 = Except.ok () →
      ∀ c, (PyTyrant.iterkeys fuel s).1 ≠ Except.error (Err.tyrant c)) := by
  refine ⟨iterkeysAux_no_tyrant, fun fuel s hinit c => ?_⟩
  cases h : Tyrant.iterinit s with
  | mk res s' =>
      cases res with
      | ok u =>
          cases u
          have hk : PyTyrant.iterkeys fuel s = PyTyrant.iterkeysAux fuel s' :=
            mbind_ok _ _ _ _ _ h
          rw [hk]
          exact iterkeysAux_no_tyrant fuel s' c
      | error e =>
          rw [h] at hinit
          simp at hinit

/-- Witness for C2: on a stream whose `iterinit` succeeds and whose
first `iternext` raises code 1, the materialized iteration does not
surface a `TyrantError`. -/
theorem c2_iterkeys_stops_witness :
    (PyTyrant.iterkeys 1 ⟨[[0, 1]], [], []⟩).1 ≠
      Except.error (Err.tyrant 1) :=
  c2_iterkeys_stops_on_any_tyrant_error.2 1 ⟨[[0, 1]], [], []⟩ rfl 1

/-- C6: the status-read primitive consumes exactly one byte; a zero
byte means success and any non-zero byte `b` raises a protocol error
carrying exactly `b`; and in every payload-bearing command a non-zero
status byte short-circuits the call — the frame goes out, exactly the
one status byte is consumed, and no payload bytes are read (the rest of
the inbound stream is left untouched). -/
theorem c6_status_byte_handling :
    (∀ b c r w o, socksuccess ⟨(b :: c) :: r, w, o⟩ =
        ((if b = 0 then Except.ok () else Except.error (Err.tyrant b)),
         ⟨if c = [] then r else c :: r, w, o⟩))
  ∧ (∀ k b r o, b ≠ 0 → Tyrant.get k ⟨[b] :: r, [], o⟩ =
        (.error (.tyrant b), ⟨r, [], o ++ (_t1 C.get k).flatten⟩))
  ∧ (∀ ks b r o, b ≠ 0 → Tyrant.mget ks ⟨[b] :: r, [], o⟩ =
        (.error (.tyrant b), ⟨r, [], o ++ (_tN C.mget ks).flatten⟩))
  ∧ (∀ k b r o, b ≠ 0 → Tyrant.vsiz k ⟨[b] :: r, [], o⟩ =
        (.error (.tyrant b), ⟨r, [], o ++ (_t1 C.vsiz k).flatten⟩))
  ∧ (∀ b r o, b ≠ 0 → Tyrant.iternext ⟨[b] :: r, [], o⟩ =
        (.error (.tyrant b), ⟨r, [], o ++ (_t0 C.iternext).flatten⟩))
  ∧ (∀ p m b r o, b ≠ 0 → Tyrant.fwmkeys p m ⟨[b] :: r, [], o⟩ =
        (.error (.tyrant b), ⟨r, [], o ++ (_t1M C.fwmkeys p m).flatten⟩))
  ∧ (∀ f op k v b r o, b ≠ 0 → Tyrant.ext f op k v ⟨[b] :: r, [], o⟩ =
        (.error (.tyrant b), ⟨r, [], o ++ (_t3F C.ext f op k v).flatten⟩))
  ∧ (∀ b r o, b ≠ 0 → Tyrant.rnum ⟨[b] :: r, [], o⟩ =
        (.error (.tyrant b), ⟨r, [], o ++ (_t0 C.rnum).flatten⟩))
  ∧ (∀ b r o, b ≠ 0 → Tyrant.size ⟨[b] :: r, [], o⟩ =
        (.error (.tyrant b), ⟨r, [], o ++ (_t0 C.size).flatten⟩))
  ∧ (∀ b r o, b ≠ 0 → Tyrant.stat ⟨[b] :: r, [], o⟩ =
        (.error (.tyrant b), ⟨r, [], o ++ (_t0 C.stat).flatten⟩))
  ∧ (∀ f op args b r o, b ≠ 0 → Tyrant.misc f op args ⟨[b] :: r, [], o⟩ =
        (.error (.tyrant b), ⟨r, [], o ++ (_t1FN C.misc f op args).flatten⟩)) := by
  refine ⟨socksuccess_cons, fun k b r o hb => ?_, fun ks b r o hb => ?_,
    fun k b r o hb => ?_, fun b r o hb => ?_, fun p m b r o hb => ?_,
    fun f op k v b r o hb => ?_, fun b r o hb => ?_, fun b r o hb => ?_,
    fun b r o hb => ?_, fun f op args b r o hb => ?_⟩
  · exact statusFail2 _ _ b r o hb
  · exact statusFail2 _ _ b r o hb
  · exact statusFail2 _ _ b r o hb
  · exact statusFail2 _ _ b r o hb
  · exact statusFail2 _ _ b r o hb
  · exact statusFail2 _ _ b r o hb
  · exact statusFail2 _ _ b r o hb
  · exact statusFail2 _ _ b r o hb
  · exact statusFail2 _ _ b r o hb
  · exact statusFail2 _ _ b r o hb

/-- Witness for C6: a `get` against a stream whose status byte is 5
errors with code 5 and leaves the would-be payload chunk unread. -/
theorem c6_status_byte_handling_witness :
    Tyrant.get [107] ⟨[[5], [99]], [], []⟩ =
      (.error (.tyrant 5), ⟨[[99]], [], [] ++ (_t1 C.get [107]).flatten⟩) :=
  c6_status_byte_handling.2.1 [107] 5 [[99]] [] (by decide)

/-- C7: `setdefault(key, value)` first attempts `putkeep`; when
`putkeep` succeeds it returns the given value, and when `putkeep` fails
with a `TyrantError` (the AlreadyExists case) it falls back to the
item-read operation `self[key]` and returns the stored value that read
produces. -/
theorem c7_setdefault_putkeep_fallback :
    (∀ k v s s', Tyrant.putkeep k v s = (Except.ok (), s') →
        PyTyrant.setdefault k v s = (Except.ok v, s'))
  ∧ (∀ k v s c s',
        Tyrant.putkeep k v s = (Except.error (Err.tyrant c), s') →
        PyTyrant.setdefault k v s = PyTyrant.getitem k s')
  ∧ (∀ k v s c s' w s'',
        Tyrant.putkeep k v s = (Except.error (Err.tyrant c), s') →
        PyTyrant.getitem k s' = (Except.ok w, s'') →
        PyTyrant.setdefault k v s = (Except.ok w, s'')) := by
  refine ⟨fun k v s s' h => ?_, fun k v s c s' h => ?_,
    fun k v s c s' w s'' h hg => ?_⟩
  · simp [PyTyrant.setdefault, catchTyrant, mbind, mret, h]
  · simp [PyTyrant.setdefault, catchTyrant, mbind, h]
  · simp [PyTyrant.setdefault, catchTyrant, mbind, h, hg]

/-- Witness for C7: a successful `putkeep` run returning the given
value, and an AlreadyExists-style run returning the stored value read
back by the fallback `get`. -/
theorem c7_setdefault_witness :
    PyTyrant.setdefault [107] [118] ⟨[[0]], [], []⟩ =
      (Except.ok [118],
       ⟨[], [], [200, 17, 0, 0, 0, 1, 0, 0, 0, 1, 107, 118]⟩)
  ∧ PyTyrant.setdefault [107] [118] ⟨[[1, 0, 0, 0, 0, 1, 119]], [], []⟩ =
      (Except.ok [119],
       ⟨[], [], [200, 17, 0, 0, 0, 1, 0, 0, 0, 1, 107, 118,
                 200, 48, 0, 0, 0, 1, 107]⟩) := by
  refine ⟨c7_setdefault_putkeep_fallback.1 [107] [118] _ _ rfl,
    c7_setdefault_putkeep_fallback.2.2 [107] [118] _ 1
      ⟨[[0, 0, 0, 0, 1, 119]], [],
       [200, 17, 0, 0, 0, 1, 0, 0, 0, 1, 107, 118]⟩ [119] _ rfl rfl⟩

/-- C9: `putnr` sends its frame and performs no read at all — it always
returns success and leaves the inbound stream untouched, so no failure
of the call is observable — while every other command of the command
set reads the status byte first: on a non-zero status byte `b` each of
them fails with the protocol error carrying `b` after consuming exactly
that byte. -/
theorem c9_putnr_fire_and_forget :
    (∀ k v s, (Tyrant.putnr k v s).1 = Except.ok ()
        ∧ (Tyrant.putnr k v s).2.rchunks = s.rchunks)
  ∧ (∀ k v r o, Tyrant.putnr k v ⟨r, [], o⟩ =
        (.ok (), ⟨r, [], o ++ (_t2 C.putnr k v).flatten⟩))
  ∧ (∀ k v b r o, b ≠ 0 → Tyrant.put k v ⟨[b] :: r, [], o⟩ =
        (.error (.tyrant b), ⟨r, [], o ++ (_t2 C.put k v).flatten⟩))
  ∧ (∀ k v b r o, b ≠ 0 → Tyrant.putkeep k v ⟨[b] :: r, [], o⟩ =
        (.error (.tyrant b), ⟨r, [], o ++ (_t2 C.putkeep k v).flatten⟩))
  ∧ (∀ k v b r o, b ≠ 0 → Tyrant.putcat k v ⟨[b] :: r, [], o⟩ =
        (.error (.tyrant b), ⟨r, [], o ++ (_t2 C.putcat k v).flatten⟩))
  ∧ (∀ k v wd b r o, b ≠ 0 → Tyrant.putshl k v wd ⟨[b] :: r, [], o⟩ =
        (.error (.tyrant b), ⟨r, [], o ++ (_t2W C.putshl k v wd).flatten⟩))
  ∧ (∀ k b r o, b ≠ 0 → Tyrant.out k ⟨[b] :: r, [], o⟩ =
        (.error (.tyrant b), ⟨r, [], o ++ (_t1 C.out k).flatten⟩))
  ∧ (∀ k b r o, b ≠ 0 → Tyrant.get k ⟨[b] :: r, [], o⟩ =
        (.error (.tyrant b), ⟨r, [], o ++ (_t1 C.get k).flatten⟩))
  ∧ (∀ ks b r o, b ≠ 0 → Tyrant.mget ks ⟨[b] :: r, [], o⟩ =
        (.error (.tyrant b), ⟨r, [], o ++ (_tN C.mget ks).flatten⟩))
  ∧ (∀ k b r o, b ≠ 0 → Tyrant.vsiz k ⟨[b] :: r, [], o⟩ =
        (.error (.tyrant b), ⟨r, [], o ++ (_t1 C.vsiz k).flatten⟩))
  ∧ (∀ b r o, b ≠ 0 → Tyrant.iterinit ⟨[b] :: r, [], o⟩ =
        (.error (.tyrant b), ⟨r, [], o ++ (_t0 C.iterinit).flatten⟩))
  ∧ (∀ b r o, b ≠ 0 → Tyrant.iternext ⟨[b] :: r, [], o⟩ =
        (.error (.tyrant b), ⟨r, [], o ++ (_t0 C.iternext).flatten⟩))
  ∧ (∀ p m b r o, b ≠ 0 → Tyrant.fwmkeys p m ⟨[b] :: r, [], o⟩ =
        (.error (.tyrant b), ⟨r, [], o ++ (_t1M C.fwmkeys p m).flatten⟩))
  ∧ (∀ f op k v b r o, b ≠ 0 → Tyrant.ext f op k v ⟨[b] :: r, [], o⟩ =
        (.error (.tyrant b), ⟨r, [], o ++ (_t3F C.ext f op k v).flatten⟩))
  ∧ (∀ b r o, b ≠ 0 → Tyrant.sync ⟨[b] :: r, [], o⟩ =
        (.error (.tyrant b), ⟨r, [], o ++ (_t0 C.sync).flatten⟩))
  ∧ (∀ b r o, b ≠ 0 → Tyrant.vanish ⟨[b] :: r, [], o⟩ =
        (.error (.tyrant b), ⟨r, [], o ++ (_t0 C.vanish).flatten⟩))
  ∧ (∀ p b r o, b ≠ 0 → Tyrant.copy p ⟨[b] :: r, [], o⟩ =
        (.error (.tyrant b), ⟨r, [], o ++ (_t1 C.copy p).flatten⟩))
  ∧ (∀ p ms b r o, b ≠ 0 → Tyrant.restore p ms ⟨[b] :: r, [], o⟩ =
        (.error (.tyrant b), ⟨r, [], o ++ (_t1R C.copy p ms).flatten⟩))
  ∧ (∀ h pt b r o, b ≠ 0 → Tyrant.setmst h pt ⟨[b] :: r, [], o⟩ =
        (.error (.tyrant b), ⟨r, [], o ++ (_t1M C.setmst h pt).flatten⟩))
  ∧ (∀ b r o, b ≠ 0 → Tyrant.rnum ⟨[b] :: r, [], o⟩ =
        (.error (.tyrant b), ⟨r, [], o ++ (_t0 C.rnum).flatten⟩))
  ∧ (∀ b r o, b ≠ 0 → Tyrant.size ⟨[b] :: r, [], o⟩ =
        (.error (.tyrant b), ⟨r, [], o ++ (_t0 C.size).flatten⟩))
  ∧ (∀ b r o, b ≠ 0 → Tyrant.stat ⟨[b] :: r, [], o⟩ =
        (.error (.tyrant b), ⟨r, [], o ++ (_t0 C.stat).flatten⟩))
  ∧ (∀ f op args b r o, b ≠ 0 → Tyrant.misc f op args ⟨[b] :: r, [], o⟩ =
        (.error (.tyrant b), ⟨r, [], o ++ (_t1FN C.misc f op args).flatten⟩)) := by
  refine ⟨fun k v s => ⟨rfl, sendAll_rchunks _ _⟩,
    fun k v r o => socksend_nocaps _ r o,
    fun k v b r o hb => statusFail1 _ b r o hb,
    fun k v b r o hb => statusFail1 _ b r o hb,
    fun k v b r o hb => statusFail1 _ b r o hb,
    fun k v wd b r o hb => statusFail1 _ b r o hb,
    fun k b r o hb => statusFail1 _ b r o hb,
    fun k b r o hb => statusFail2 _ _ b r o hb,
    fun ks b r o hb => statusFail2 _ _ b r o hb,
    fun k b r o hb => statusFail2 _ _ b r o hb,
    fun b r o hb => statusFail1 _ b r o hb,
    fun b r o hb => statusFail2 _ _ b r o hb,
    fun p m b r o hb => statusFail2 _ _ b r o hb,
    fun f op k v b r o hb => statusFail2 _ _ b r o hb,
    fun b r o hb => statusFail1 _ b r o hb,
    fun b r o hb => statusFail1 _ b r o hb,
    fun p b r o hb => statusFail1 _ b r o hb,
    fun p ms b r o hb => statusFail1 _ b r o hb,
    fun h pt b r o hb => statusFail1 _ b r o hb,
    fun b r o hb => statusFail2 _ _ b r o hb,
    fun b r o hb => statusFail2 _ _ b r o hb,
    fun b r o hb => statusFail2 _ _ b r o hb,
    fun f op args b r o hb => statusFail2 _ _ b r o hb⟩

/-- Witness for C9: a `put` against a non-zero status byte fails with
that code, while `putnr` on the same kind of stream succeeds without
reading it. -/
theorem c9_putnr_fire_and_forget_witness :
    Tyrant.put [107] [118] ⟨[[5]], [], []⟩ =
      (.error (.tyrant 5), ⟨[], [], [] ++ (_t2 C.put [107] [118]).flatten⟩)
  ∧ Tyrant.putnr [107] [118] ⟨[[5]], [], []⟩ =
      (.ok (), ⟨[[5]], [], [] ++ (_t2 C.putnr [107] [118]).flatten⟩) :=
  ⟨c9_putnr_fire_and_forget.2.2.1 [107] [118] 5 [] [] (by decide),
   c9_putnr_fire_and_forget.2.1 [107] [118] [[5]] []⟩

/-- C10: the four key-level container reads translate every
`TyrantError`, whatever its code, into key absence: a `TyrantError`
from `vsiz` makes the containment test return `False`, and a
`TyrantError` from `get`, `out` or `vsiz` makes item read, item delete
and `get_size` raise `KeyError(key)`; none of the four ever lets a raw
`TyrantError` escape. -/
theorem c10_container_error_translation :
    (∀ k s c s', Tyrant.vsiz k s = (Except.error (Err.tyrant c), s') →
        PyTyrant.contains k s = (Except.ok false, s'))
  ∧ (∀ k s c, (PyTyrant.contains k s).1 ≠ Except.error (Err.tyrant c))
  ∧ (∀ k s c s', Tyrant.get k s = (Except.error (Err.tyrant c), s') →
        PyTyrant.getitem k s = (Except.error (Err.keyError k), s'))
  ∧ (∀ k s c, (PyTyrant.getitem k s).1 ≠ Except.error (Err.tyrant c))
  ∧ (∀ k s c s', Tyrant.out k s = (Except.error (Err.tyrant c), s') →
        PyTyrant.delitem k s = (Except.error (Err.keyError k), s'))
  ∧ (∀ k s c, (PyTyrant.delitem k s).1 ≠ Except.error (Err.tyrant c))
  ∧ (∀ k s c s', Tyrant.vsiz k s = (Except.error (Err.tyrant c), s') →
        PyTyrant.get_size k s = (Except.error (Err.keyError k), s'))
  ∧ (∀ k s c, (PyTyrant.get_size k s).1 ≠ Except.error (Err.tyrant c)) := by
  refine ⟨fun k s c s' h => ?_, fun k s c => ?_, fun k s c s' h => ?_,
    fun k s c => ?_, fun k s c s' h => ?_, fun k s c => ?_,
    fun k s c s' h => ?_, fun k s c => ?_⟩
  · simp [PyTyrant.contains, catchTyrant, mbind, mret, h]
  · exact catchTyrant_no_tyrant _ _ s c fun s' => by simp [mret]
  · simp [PyTyrant.getitem, catchTyrant, throwM, h]
  · exact catchTyrant_no_tyrant _ _ s c fun s' => by simp [throwM]
  · simp [PyTyrant.delitem, catchTyrant, throwM, h]
  · exact catchTyrant_no_tyrant _ _ s c fun s' => by simp [throwM]
  · simp [PyTyrant.get_size, catchTyrant, throwM, h]
  · exact catchTyrant_no_tyrant _ _ s c fun s' => by simp [throwM]

/-- Witness for C10: against a stream whose status byte is the non-zero
code 1, the four container reads produce `False` and `KeyError`
respectively. -/
theorem c10_container_error_translation_witness :
    PyTyrant.contains [107] ⟨[[1]], [], []⟩ =
      (Except.ok false, ⟨[], [], [200, 56, 0, 0, 0, 1, 107]⟩)
  ∧ PyTyrant.getitem [107] ⟨[[1]], [], []⟩ =
      (Except.error (Err.keyError [107]),
       ⟨[], [], [200, 48, 0, 0, 0, 1, 107]⟩)
  ∧ PyTyrant.delitem [107] ⟨[[1]], [], []⟩ =
      (Except.error (Err.keyError [107]),
       ⟨[], [], [200, 32, 0, 0, 0, 1, 107]⟩)
  ∧ PyTyrant.get_size [107] ⟨[[1]], [], []⟩ =
      (Except.error (Err.keyError [107]),
       ⟨[], [], [200, 56, 0, 0, 0, 1, 107]⟩) :=
  ⟨c10_container_error_translation.1 [107] ⟨[[1]], [], []⟩ 1 _ rfl,
   c10_container_error_translation.2.2.1 [107] ⟨[[1]], [], []⟩ 1 _ rfl,
   c10_container_error_translation.2.2.2.2.1 [107] ⟨[[1]], [], []⟩ 1 _ rfl,
   c10_container_error_translation.2.2.2.2.2.2.1 [107] ⟨[[1]], [], []⟩ 1 _ rfl⟩

/-- C8: `get_stats` parses the `stat()` text blob by splitting each
non-empty line at its first tab only: whenever every non-empty line
contains a tab, the resulting entries are, in order, one per non-empty
line, mapping the text before the line's first tab to all text after it
(later tabs kept in the value); blank lines contribute no entry. -/
theorem c8_get_stats_first_tab_split (blob : Bytes)
    (hlen : blob.length < 2 ^ 32)
    (htabs : ∀ l ∈ (splitlines blob).filter (fun l => l ≠ []),
        (9 : Nat) ∈ l) :
    PyTyrant.get_stats ⟨[[0] ++ beBytes 4 blob.length ++ blob], [], []⟩ =
      (Except.ok (((splitlines blob).filter fun l => l ≠ []).map fun l =>
          (l.takeWhile fun b => b != 9, (l.dropWhile fun b => b != 9).tail)),
       ⟨[], [], [MAGIC, C.stat]⟩) := by
  calc PyTyrant.get_stats ⟨[[0] ++ beBytes 4 blob.length ++ blob], [], []⟩
      = (statPairs ((splitlines blob).filter fun l => l ≠ []),
         ⟨[], [], [MAGIC, C.stat]⟩) :=
        mbind_ok _ _ _ _ _ (stat_run blob hlen)
    _ = _ := by rw [statPairs_ok _ htabs]

/-- Witness for C8 at the concrete blob `"a\tb\n\nc\td\te\n"`. -/
theorem c8_get_stats_witness :
    PyTyrant.get_stats
        ⟨[[0] ++ beBytes 4 (11 : Nat) ++
            [97, 9, 98, 10, 10, 99, 9, 100, 9, 101, 10]], [], []⟩ =
      (Except.ok [([97], [98]), ([99], [100, 9, 101])],
       ⟨[], [], [MAGIC, C.stat]⟩) := by
  have h := c8_get_stats_first_tab_split
    [97, 9, 98, 10, 10, 99, 9, 100, 9, 101, 10] (by decide) (by decide)
  simpa using h

end Pytyrant
